import Mathlib

/-!
Verification of the weather-app request pipeline (`src/main.py`).

The Python source is shallowly embedded:
* floats that carry temperature/wind values become `ℚ` (the claims are about
  exact value-level behaviour of `round`, comparisons and table lookups);
* Python `round` (banker's rounding to the nearest integer) becomes `pyRound`;
* `datetime.fromisoformat` restricted to the `YYYY-MM-DD` date form that the
  upstream daily `time` array carries becomes `parseIsoDate`;
* `datetime.weekday()` (Monday = 0) becomes `weekday`, computed from a
  days-from-civil calendar count;
* the two network calls (`geocode_city`, `get_weather`) are modelled by their
  observable outcomes: a successful payload, an `httpx.HTTPError`, or any
  other exception, packaged in an `Env` the orchestrator `home` consumes;
* the template context dictionary built by `home` becomes the `Ctx`
  structure, with `Option` fields for keys that are present in only one of
  the success/error branches.
-/

/-- Embedding of `JP_DOW` from `main.py`: the fixed 7-element day-of-week label table,
indexed by `datetime.weekday()` (Monday = 0). -/
def JP_DOW : List String := ["月", "火", "水", "木", "金", "土", "日"]

/-- Embedding of `icon_file_from_code` from `main.py`: maps the integer weather code to the
icon file name via the chain of membership tests. -/
def icon_file_from_code (code : ℤ) : String :=
  if code ∈ ([0] : List ℤ) then "sun.svg"
  else if code ∈ ([1, 2] : List ℤ) then "sun.svg"
  else if code ∈ ([3, 45, 48] : List ℤ) then "cloud.svg"
  else if code ∈ ([51, 53, 55, 56, 57, 61, 63, 65, 66, 67, 80, 81, 82] : List ℤ) then "rain.svg"
  else if code ∈ ([71, 73, 75, 77, 85, 86] : List ℤ) then "cloud.svg"
  else if code ∈ ([95, 96, 99] : List ℤ) then "rain.svg"
  else "cloud.svg"

/-- The icon dictionary `{"file": ..., "name": ...}` returned by `cute_icon`. -/
structure Icon where
  file : String
  name : String
  deriving Repr, DecidableEq

/-- Embedding of `cute_icon` from `main.py`: pairs the icon file with its display name. -/
def cute_icon (code : ℤ) : Icon :=
  let file := icon_file_from_code code
  let name :=
    if file = "sun.svg" then "たいよう"
    else if file = "rain.svg" then "あめ"
    else "くも"
  { file := file, name := name }

/-- Embedding of `rain_codes` from `choose_character` in `main.py`. -/
def rain_codes : List ℤ := [51, 53, 55, 56, 57, 61, 63, 65, 66, 67, 80, 81, 82, 95, 96, 99]

/-- Embedding of `choose_character` from `main.py`: rain beats cold beats sunny.  The
`temp_c` argument keeps the source's `is not None` guard by taking an
`Option ℚ`. -/
def choose_character (weathercode : ℤ) (temp_c : Option ℚ) : String :=
  if weathercode ∈ rain_codes then "character_rainy.png"
  else
    match temp_c with
    | some t => if t ≤ 5 then "character_cold.png" else "character_sunny.png"
    | none => "character_sunny.png"

/-- Python's `round` to the nearest integer on an exact rational value:
round-half-to-even (banker's rounding).  The fractional part `x - ⌊x⌋` is
compared with `1/2` by the equivalent exact integer comparison of
`2 * x.num` with `(2 * ⌊x⌋ + 1) * x.den`; `pyRound_lt_half_iff` below proves
the equivalence. -/
def pyRound (x : ℚ) : ℤ :=
  let n := ⌊x⌋
  if 2 * x.num < (2 * n + 1) * (x.den : ℤ) then n
  else if (2 * n + 1) * (x.den : ℤ) < 2 * x.num then n + 1
  else if n % 2 = 0 then n else n + 1

/-- A calendar date, as held by a `datetime` restricted to its date part. -/
structure SimpleDate where
  year : ℕ
  month : ℕ
  day : ℕ
  deriving Repr, DecidableEq

/-- Gregorian leap-year test. -/
def isLeap (y : ℕ) : Bool := (y % 4 == 0 && y % 100 != 0) || y % 400 == 0

/-- Number of days in a month of a given year. -/
def daysInMonth (y m : ℕ) : ℕ :=
  if m = 2 then (if isLeap y then 29 else 28)
  else if m = 4 ∨ m = 6 ∨ m = 9 ∨ m = 11 then 30
  else 31

/-- Embedding of `datetime.fromisoformat` on the `YYYY-MM-DD` date strings the upstream
daily `time` array carries: ten characters, four year digits, two month
digits, two day digits, dash separators, and a valid calendar date with
year ≥ 1; anything else fails to parse. -/
def parseIsoDate (s : String) : Option SimpleDate :=
  match s.data with
  | [y1, y2, y3, y4, s1, m1, m2, s2, d1, d2] =>
    if y1.isDigit && y2.isDigit && y3.isDigit && y4.isDigit && s1 == '-' &&
        m1.isDigit && m2.isDigit && s2 == '-' && d1.isDigit && d2.isDigit then
      let y := (((y1.toNat - 48) * 10 + (y2.toNat - 48)) * 10 + (y3.toNat - 48)) * 10
        + (y4.toNat - 48)
      let m := (m1.toNat - 48) * 10 + (m2.toNat - 48)
      let d := (d1.toNat - 48) * 10 + (d2.toNat - 48)
      if 1 ≤ y && 1 ≤ m && m ≤ 12 && 1 ≤ d && d ≤ daysInMonth y m then
        some { year := y, month := m, day := d }
      else none
    else none
  | _ => none

/-- Days since 1970-01-01 of a civil date (standard days-from-civil
computation). -/
def daysFromCivil (dt : SimpleDate) : ℤ :=
  let y : ℤ := if dt.month ≤ 2 then (dt.year : ℤ) - 1 else (dt.year : ℤ)
  let era : ℤ := (if 0 ≤ y then y else y - 399) / 400
  let yoe : ℤ := y - era * 400
  let mp : ℤ := ((dt.month : ℤ) + 9) % 12
  let doy : ℤ := (153 * mp + 2) / 5 + (dt.day : ℤ) - 1
  let doe : ℤ := yoe * 365 + yoe / 4 - yoe / 100 + doy
  era * 146097 + doe - 719468

/-- Embedding of `datetime.weekday()`: Monday = 0 … Sunday = 6.  1970-01-01 was a
Thursday, hence the offset 3. -/
def weekday (dt : SimpleDate) : Fin 7 :=
  ⟨((daysFromCivil dt + 3) % 7).toNat, by
    have h1 : 0 ≤ (daysFromCivil dt + 3) % 7 :=
      Int.emod_nonneg _ (by decide : (7 : ℤ) ≠ 0)
    have h2 : (daysFromCivil dt + 3) % 7 < 7 :=
      Int.emod_lt_of_pos _ (by decide : (0 : ℤ) < 7)
    omega⟩

/-- The `daily` dictionary consumed by `build_daily_list`: each key defaults
to the empty list when absent, exactly as `daily.get(key, [])` does. -/
structure DailyRaw where
  time : List String
  temperature_2m_max : List ℚ
  temperature_2m_min : List ℚ
  weathercode : List ℤ

/-- One element of the list `build_daily_list` produces. -/
structure DayEntry where
  date : String
  dow : String
  tmax : Option ℤ
  tmin : Option ℤ
  file : String
  deriving Repr, DecidableEq

/-- Placeholder entry used only as the default of out-of-range `getD`
lookups in statements. -/
def defaultEntry : DayEntry := { date := "", dow := "", tmax := none, tmin := none, file := "" }

/-- Embedding of `build_daily_list` from `main.py`: one entry per element of
`daily["time"]` (the `for i, datestr in enumerate(times)` loop), with
`datetime.utcnow()` passed in as `now`. -/
def build_daily_list (now : SimpleDate) (daily : DailyRaw) : List DayEntry :=
  daily.time.mapIdx fun i datestr =>
    let dt := (parseIsoDate datestr).getD now
    { date := datestr
      dow := JP_DOW.get ⟨(weekday dt).val, (weekday dt).isLt⟩
      tmax := if h : i < daily.temperature_2m_max.length then
          some (pyRound (daily.temperature_2m_max.get ⟨i, h⟩)) else none
      tmin := if h : i < daily.temperature_2m_min.length then
          some (pyRound (daily.temperature_2m_min.get ⟨i, h⟩)) else none
      file := icon_file_from_code
        (if h : i < daily.weathercode.length then daily.weathercode.get ⟨i, h⟩ else 3) }

/-- The location dictionary `geocode_city` returns on success. -/
structure Loc where
  name : String
  lat : ℚ
  lon : ℚ
  country : Option String

/-- The `current_weather` object of the forecast response; every field is
optional because `home` reads each with `cw.get(key, default)`. -/
structure CurrentWeather where
  temperature : Option ℚ
  windspeed : Option ℚ
  weathercode : Option ℤ
  time : Option String

/-- The `current_weather` value used when the key is absent
(`w.get("current_weather", {})`). -/
def emptyCurrentWeather : CurrentWeather :=
  { temperature := none, windspeed := none, weathercode := none, time := none }

/-- The `daily` value used when the key is absent (`w.get("daily", {})`). -/
def emptyDaily : DailyRaw :=
  { time := [], temperature_2m_max := [], temperature_2m_min := [], weathercode := [] }

/-- The forecast-service response body consumed by `home`. -/
structure ForecastResponse where
  current_weather : Option CurrentWeather
  daily : Option DailyRaw

/-- Observable outcome of one awaited network call inside the `try` block:
the returned value, an `httpx.HTTPError` (raised by `raise_for_status` or by
the transport), or any other exception. -/
inductive CallResult (α : Type) where
  | ok (value : α)
  | httpError (msg : String)
  | exc (msg : String)

/-- Environment of one request: what each of the two upstream calls would
produce, and the current date used by `datetime.utcnow()`. -/
structure Env where
  geocode : CallResult (Option Loc)
  weather : CallResult ForecastResponse
  now : SimpleDate

/-- The template context built by `home`: each key of the Python dict is an
`Option` field, `none` when the branch does not put the key in the dict (the
framework `request` object is omitted — both branches always include it). -/
structure Ctx where
  error : Option String := none
  city : Option String := none
  country : Option (Option String) := none
  temp : Option ℤ := none
  windspeed : Option ℚ := none
  time : Option String := none
  icon : Option Icon := none
  character : Option String := none
  daily : Option (List DayEntry) := none
  query_city : Option String := none

/-- Embedding of `home` from `main.py`: the request orchestrator.  The `try` body runs the
geocode call, the not-found check, the weather call and the context assembly;
`httpx.HTTPError` and the catch-all `except Exception` branches each render
the error context. -/
def home (env : Env) (city : String) : Ctx :=
  match env.geocode with
  | .httpError e => { error := some ("API通信でエラー: " ++ e) }
  | .exc e => { error := some ("想定外のエラー: " ++ e) }
  | .ok none => { error := some ("場所『" ++ city ++ "』が見つかりませんでした。") }
  | .ok (some loc) =>
    match env.weather with
    | .httpError e => { error := some ("API通信でエラー: " ++ e) }
    | .exc e => { error := some ("想定外のエラー: " ++ e) }
    | .ok w =>
      let cw := w.current_weather.getD emptyCurrentWeather
      let daily_list := build_daily_list env.now (w.daily.getD emptyDaily)
      let icon := cute_icon (cw.weathercode.getD 3)
      let character_file :=
        choose_character (cw.weathercode.getD 3) (some (cw.temperature.getD 0))
      { city := some loc.name
        country := some loc.country
        temp := some (pyRound (cw.temperature.getD 0))
        windspeed := some (cw.windspeed.getD 0)
        time := some (cw.time.getD "")
        icon := some icon
        character := some character_file
        daily := some daily_list
        query_city := some city }

/-- Concrete dates used to instantiate statements about `build_daily_list`. -/
def now0 : SimpleDate := { year := 2026, month := 10, day := 12 }

/-- An upstream payload with eight dates: more than the seven the upstream
contract promises. -/
def dEight : DailyRaw :=
  { time := ["2027-01-01", "2027-01-02", "2027-01-03", "2027-01-04", "2027-01-05",
      "2027-01-06", "2027-01-07", "2027-01-08"]
    temperature_2m_max := [1, 2, 3, 4, 5, 6, 7, 8]
    temperature_2m_min := [0, 0, 0, 0, 0, 0, 0, 0]
    weathercode := [0, 1, 2, 3, 45, 61, 95, 99] }

/-- A well-formed seven-day upstream payload. -/
def dSeven : DailyRaw :=
  { time := ["2026-10-12", "2026-10-13", "2026-10-14", "2026-10-15", "2026-10-16",
      "2026-10-17", "2026-10-18"]
    temperature_2m_max := [mkRat 41 2, 19, 18, 17, 16, 15, 14]
    temperature_2m_min := [10, 9, 8, 7, 6, 5, 4]
    weathercode := [1, 2, 3, 61, 95, 45, 0] }

/-- An upstream payload whose temperature and code arrays are empty while two
dates are present. -/
def dMismatch : DailyRaw :=
  { time := ["2026-01-01", "2026-01-02"]
    temperature_2m_max := []
    temperature_2m_min := []
    weathercode := [] }

/-- Environment of scenario B: geocoding finds nothing. -/
def envNotFound : Env :=
  { geocode := CallResult.ok none
    weather := CallResult.ok { current_weather := none, daily := none }
    now := now0 }

/-- A resolved location used to instantiate the orchestrator theorems. -/
def locZurich : Loc :=
  { name := "Zurich", lat := 47, lon := 8, country := some "Switzerland" }

/-- A forecast response whose `current_weather` lacks the `weathercode`
field. -/
def fcNoCode : ForecastResponse :=
  { current_weather := some
      { temperature := some 10, windspeed := some 5, weathercode := none,
        time := some "2026-10-12T12:00" }
    daily := some dSeven }

/-- Environment in which geocoding succeeds and the forecast response lacks
a current weather code. -/
def envNoCode : Env :=
  { geocode := CallResult.ok (some locZurich)
    weather := CallResult.ok fcNoCode
    now := now0 }

/-! ## Claim theorems -/

/-- C2: The classifier is total on integers and follows the fixed table:
codes 0, 1, 2 give the sun icon file, each code of the 16-element rain set
gives the rain icon file, and every other integer code gives the cloud icon
file. -/
theorem icon_classification_table (c : ℤ) :
    ((c = 0 ∨ c = 1 ∨ c = 2) → icon_file_from_code c = "sun.svg") ∧
    (c ∈ rain_codes → icon_file_from_code c = "rain.svg") ∧
    (¬(c = 0 ∨ c = 1 ∨ c = 2) → c ∉ rain_codes → icon_file_from_code c = "cloud.svg") := by
  refine ⟨?_, ?_, ?_⟩
  · rintro (rfl | rfl | rfl) <;> decide
  · intro h
    simp only [rain_codes, List.mem_cons, List.not_mem_nil, or_false] at h
    rcases h with rfl | rfl | rfl | rfl | rfl | rfl | rfl | rfl | rfl | rfl | rfl | rfl | rfl |
      rfl | rfl | rfl <;> decide
  · intro h1 h2
    simp only [rain_codes, List.mem_cons, List.not_mem_nil, or_false, not_or] at h1 h2
    unfold icon_file_from_code
    split_ifs <;> first | rfl | (exfalso; simp_all)

theorem icon_classification_table_witness :
    icon_file_from_code 0 = "sun.svg" ∧ icon_file_from_code 61 = "rain.svg" ∧
    icon_file_from_code 45 = "cloud.svg" :=
  ⟨(icon_classification_table 0).1 (Or.inl rfl),
   (icon_classification_table 61).2.1 (by decide),
   (icon_classification_table 45).2.2 (by decide) (by decide)⟩

/-- C3: Mascot selection is first-match-wins: a code in the rain set gives
the rainy mascot regardless of temperature; otherwise a temperature ≤ 5 gives
the cold mascot; otherwise the sunny mascot.  In particular
`choose_character 95 (-3) = rainy`. -/
theorem choose_character_priority (w : ℤ) (t : ℚ) :
    (w ∈ rain_codes → choose_character w (some t) = "character_rainy.png") ∧
    (w ∉ rain_codes → t ≤ 5 → choose_character w (some t) = "character_cold.png") ∧
    (w ∉ rain_codes → 5 < t → choose_character w (some t) = "character_sunny.png") ∧
    choose_character 95 (some (-3)) = "character_rainy.png" := by
  refine ⟨fun h => ?_, fun h ht => ?_, fun h ht => ?_, by decide⟩
  · simp [choose_character, h]
  · simp [choose_character, h, ht]
  · simp [choose_character, h, not_le.mpr ht]

theorem choose_character_priority_witness :
    choose_character 61 (some 20) = "character_rainy.png" ∧
    choose_character 3 (some 4) = "character_cold.png" ∧
    choose_character 3 (some 20) = "character_sunny.png" ∧
    choose_character 95 (some (-3)) = "character_rainy.png" :=
  ⟨(choose_character_priority 61 20).1 (by decide),
   (choose_character_priority 3 4).2.1 (by decide) (by decide),
   (choose_character_priority 3 20).2.2.1 (by decide) (by decide),
   (choose_character_priority 95 (-3)).2.2.2⟩

/-- The integer comparison used in `pyRound` decides whether the fractional
part of `x` is below one half. -/
lemma pyRound_lt_half_iff (x : ℚ) (n : ℤ) :
    2 * x.num < (2 * n + 1) * (x.den : ℤ) ↔ x < (n : ℚ) + 1 / 2 := by
  have hd : (0 : ℚ) < (x.den : ℚ) := by exact_mod_cast x.den_pos
  have hnum : (x.num : ℚ) = x * (x.den : ℚ) := by
    calc (x.num : ℚ) = (x.num : ℚ) / (x.den : ℚ) * (x.den : ℚ) := by field_simp
    _ = x * (x.den : ℚ) := by rw [Rat.num_div_den]
  constructor
  · intro h
    have h' : ((2 * x.num : ℤ) : ℚ) < (((2 * n + 1) * (x.den : ℤ) : ℤ) : ℚ) := by
      exact_mod_cast h
    push_cast at h'
    rw [hnum] at h'
    nlinarith
  · intro h
    have h' : (2 : ℚ) * (x.num : ℚ) < ((2 * (n : ℚ) + 1)) * (x.den : ℚ) := by
      rw [hnum]
      nlinarith
    exact_mod_cast h'

/-- The mirrored comparison: the fractional part of `x` is above one half. -/
lemma pyRound_half_lt_iff (x : ℚ) (n : ℤ) :
    (2 * n + 1) * (x.den : ℤ) < 2 * x.num ↔ (n : ℚ) + 1 / 2 < x := by
  have hd : (0 : ℚ) < (x.den : ℚ) := by exact_mod_cast x.den_pos
  have hnum : (x.num : ℚ) = x * (x.den : ℚ) := by
    calc (x.num : ℚ) = (x.num : ℚ) / (x.den : ℚ) * (x.den : ℚ) := by field_simp
    _ = x * (x.den : ℚ) := by rw [Rat.num_div_den]
  constructor
  · intro h
    have h' : (((2 * n + 1) * (x.den : ℤ) : ℤ) : ℚ) < ((2 * x.num : ℤ) : ℚ) := by
      exact_mod_cast h
    push_cast at h'
    rw [hnum] at h'
    nlinarith
  · intro h
    have h' : ((2 * (n : ℚ) + 1)) * (x.den : ℚ) < (2 : ℚ) * (x.num : ℚ) := by
      rw [hnum]
      nlinarith
    exact_mod_cast h'

/-- C7: The rounding applied to the temperature fields rounds to the
nearest integer (distance at most one half), is a no-op on values that are
already integers, and resolves exact halves to the even neighbour
(round-half-to-even, the rule Python's `round` uses). -/
theorem pyRound_spec :
    (∀ x : ℚ, |(pyRound x : ℚ) - x| ≤ 1 / 2) ∧
    (∀ n : ℤ, pyRound (n : ℚ) = n) ∧
    (∀ n : ℤ, pyRound ((n : ℚ) + 1 / 2) = if n % 2 = 0 then n else n + 1) := by
  refine ⟨fun x => ?_, fun n => ?_, fun n => ?_⟩
  · have h0 : ((⌊x⌋ : ℤ) : ℚ) ≤ x := Int.floor_le x
    have h1 : x < (⌊x⌋ : ℚ) + 1 := Int.lt_floor_add_one x
    simp only [pyRound]
    split_ifs with ha hb hn
    · have hx := (pyRound_lt_half_iff x ⌊x⌋).mp ha
      rw [abs_le]
      constructor <;> linarith
    · have hx := (pyRound_half_lt_iff x ⌊x⌋).mp hb
      rw [abs_le]
      push_cast
      constructor <;> linarith
    · have hge : ¬x < (⌊x⌋ : ℚ) + 1 / 2 := fun h => ha ((pyRound_lt_half_iff x ⌊x⌋).mpr h)
      have heq : x = (⌊x⌋ : ℚ) + 1 / 2 :=
        le_antisymm (not_lt.mp fun h => hb ((pyRound_half_lt_iff x ⌊x⌋).mpr h)) (not_lt.mp hge)
      rw [abs_le]
      constructor <;> linarith
    · have hge : ¬x < (⌊x⌋ : ℚ) + 1 / 2 := fun h => ha ((pyRound_lt_half_iff x ⌊x⌋).mpr h)
      have heq : x = (⌊x⌋ : ℚ) + 1 / 2 :=
        le_antisymm (not_lt.mp fun h => hb ((pyRound_half_lt_iff x ⌊x⌋).mpr h)) (not_lt.mp hge)
      rw [abs_le]
      push_cast
      constructor <;> linarith
  · simp only [pyRound, Int.floor_intCast, Rat.intCast_num, Rat.intCast_den, Nat.cast_one,
      mul_one]
    split_ifs <;> omega
  · have hfl : ⌊(n : ℚ) + 1 / 2⌋ = n := by
      rw [Int.floor_int_add]
      norm_num
    have h1 : ¬2 * ((n : ℚ) + 1 / 2).num < (2 * n + 1) * (((n : ℚ) + 1 / 2).den : ℤ) := by
      rw [pyRound_lt_half_iff]
      exact lt_irrefl _
    have h2 : ¬(2 * n + 1) * (((n : ℚ) + 1 / 2).den : ℤ) < 2 * ((n : ℚ) + 1 / 2).num := by
      rw [pyRound_half_lt_iff]
      exact lt_irrefl _
    simp only [pyRound, hfl]
    rw [if_neg h1, if_neg h2]

/-- Lemma: `build_daily_list` yields one entry per element of `daily["time"]`. -/
lemma length_build_daily_list (now : SimpleDate) (d : DailyRaw) :
    (build_daily_list now d).length = d.time.length := by
  simp [build_daily_list]

/-- The `i`-th entry of `build_daily_list`, written out field by field. -/
lemma build_daily_list_getD (now : SimpleDate) (d : DailyRaw) (i : ℕ)
    (hi : i < d.time.length) :
    (build_daily_list now d).getD i defaultEntry =
      { date := d.time.get ⟨i, hi⟩
        dow := JP_DOW.get ⟨(weekday ((parseIsoDate (d.time.get ⟨i, hi⟩)).getD now)).val,
          (weekday ((parseIsoDate (d.time.get ⟨i, hi⟩)).getD now)).isLt⟩
        tmax := if h : i < d.temperature_2m_max.length then
            some (pyRound (d.temperature_2m_max.get ⟨i, h⟩)) else none
        tmin := if h : i < d.temperature_2m_min.length then
            some (pyRound (d.temperature_2m_min.get ⟨i, h⟩)) else none
        file := icon_file_from_code
          (if h : i < d.weathercode.length then d.weathercode.get ⟨i, h⟩ else 3) } := by
  have hlen : i < (build_daily_list now d).length := by
    rw [length_build_daily_list]
    exact hi
  rw [List.getD_eq_get _ _ hlen]
  exact List.get_mapIdx _ _ _ hi

/-- Each icon file the classifier can produce. -/
lemma icon_file_from_code_mem (c : ℤ) :
    icon_file_from_code c = "sun.svg" ∨ icon_file_from_code c = "cloud.svg" ∨
      icon_file_from_code c = "rain.svg" := by
  unfold icon_file_from_code
  split_ifs <;> simp

/-- C4 counterexample: `build_daily_list` applies no cap of its own: a
payload with eight dates produces eight entries, so "at most 7 entries for
every input" fails. -/
theorem build_daily_no_cap_counterexample :
    ¬(build_daily_list now0 dEight).length ≤ 7 := by decide

/-- C4 amended: `build_daily_list` produces exactly one entry per
element of the dates array, in input order (the `i`-th entry carries the
`i`-th date); the count is at most 7 exactly when the dates array itself has
at most 7 elements — the upstream contract, not a cap in the formatter. -/
theorem build_daily_count_and_order (now : SimpleDate) (d : DailyRaw) :
    (build_daily_list now d).length = d.time.length ∧
    (d.time.length ≤ 7 → (build_daily_list now d).length ≤ 7) ∧
    (∀ i, i < d.time.length →
      ((build_daily_list now d).getD i defaultEntry).date = d.time.getD i "") := by
  refine ⟨length_build_daily_list now d, ?_, ?_⟩
  · intro h
    rw [length_build_daily_list]
    exact h
  · intro i hi
    rw [build_daily_list_getD now d i hi, List.getD_eq_get _ _ hi]

theorem build_daily_count_and_order_witness :
    (build_daily_list now0 dSeven).length = dSeven.time.length ∧
    (build_daily_list now0 dSeven).length ≤ 7 ∧
    ((build_daily_list now0 dSeven).getD 0 defaultEntry).date = dSeven.time.getD 0 "" :=
  ⟨(build_daily_count_and_order now0 dSeven).1,
   (build_daily_count_and_order now0 dSeven).2.1 (by decide),
   (build_daily_count_and_order now0 dSeven).2.2 0 (by decide)⟩

/-- C5 counterexample: The entry count follows the dates array alone,
not the shortest of the four aligned arrays: two dates with empty
temperature/code arrays still give two entries, while the shortest aligned
array is empty. -/
theorem build_daily_len_not_min_counterexample :
    (build_daily_list now0 dMismatch).length ≠
      min (min (min dMismatch.time.length dMismatch.temperature_2m_max.length)
        dMismatch.temperature_2m_min.length) dMismatch.weathercode.length := by decide

/-- C5 amended: The entry count equals the length of the dates array;
indices past the end of the max/min temperature arrays degrade to absent
temperature fields and indices past the end of the code array fall back to
the cloud icon, rather than erroring. -/
theorem build_daily_count_eq_dates (now : SimpleDate) (d : DailyRaw) :
    (build_daily_list now d).length = d.time.length ∧
    (∀ i, i < d.time.length → d.temperature_2m_max.length ≤ i →
      ((build_daily_list now d).getD i defaultEntry).tmax = none) ∧
    (∀ i, i < d.time.length → d.temperature_2m_min.length ≤ i →
      ((build_daily_list now d).getD i defaultEntry).tmin = none) ∧
    (∀ i, i < d.time.length → d.weathercode.length ≤ i →
      ((build_daily_list now d).getD i defaultEntry).file = "cloud.svg") := by
  refine ⟨length_build_daily_list now d, ?_, ?_, ?_⟩
  · intro i hi hmax
    rw [build_daily_list_getD now d i hi]
    simp [dif_neg (not_lt.mpr hmax)]
  · intro i hi hmin
    rw [build_daily_list_getD now d i hi]
    simp [dif_neg (not_lt.mpr hmin)]
  · intro i hi hcode
    rw [build_daily_list_getD now d i hi]
    simp only [dif_neg (not_lt.mpr hcode)]
    decide

theorem build_daily_count_eq_dates_witness :
    (build_daily_list now0 dMismatch).length = dMismatch.time.length ∧
    ((build_daily_list now0 dMismatch).getD 1 defaultEntry).tmax = none ∧
    ((build_daily_list now0 dMismatch).getD 1 defaultEntry).tmin = none ∧
    ((build_daily_list now0 dMismatch).getD 1 defaultEntry).file = "cloud.svg" :=
  ⟨(build_daily_count_eq_dates now0 dMismatch).1,
   (build_daily_count_eq_dates now0 dMismatch).2.1 1 (by decide) (by decide),
   (build_daily_count_eq_dates now0 dMismatch).2.2.1 1 (by decide) (by decide),
   (build_daily_count_eq_dates now0 dMismatch).2.2.2 1 (by decide) (by decide)⟩

/-- C6: Per-entry construction: a date string that fails to parse is
replaced by the current date (the entry is still produced); the day-of-week
label comes from the fixed 7-element `JP_DOW` table indexed by the parsed
date's weekday (Monday = 0); an index past the max/min temperature arrays
leaves the corresponding field absent; an index past the code array derives
the icon from the fallback cloud code 3; and every entry carries one of the
three valid icon files. -/
theorem build_daily_entry_fields (now : SimpleDate) (d : DailyRaw) (i : ℕ)
    (hi : i < d.time.length) :
    (parseIsoDate (d.time.getD i "") = none →
      ((build_daily_list now d).getD i defaultEntry).dow = JP_DOW.getD (weekday now).val "") ∧
    (∀ dt, parseIsoDate (d.time.getD i "") = some dt →
      ((build_daily_list now d).getD i defaultEntry).dow = JP_DOW.getD (weekday dt).val "") ∧
    (d.temperature_2m_max.length ≤ i →
      ((build_daily_list now d).getD i defaultEntry).tmax = none) ∧
    (d.temperature_2m_min.length ≤ i →
      ((build_daily_list now d).getD i defaultEntry).tmin = none) ∧
    (d.weathercode.length ≤ i →
      ((build_daily_list now d).getD i defaultEntry).file = icon_file_from_code 3) ∧
    (((build_daily_list now d).getD i defaultEntry).file = "sun.svg" ∨
      ((build_daily_list now d).getD i defaultEntry).file = "cloud.svg" ∨
      ((build_daily_list now d).getD i defaultEntry).file = "rain.svg") := by
  rw [build_daily_list_getD now d i hi, List.getD_eq_get _ _ hi]
  refine ⟨fun hp => ?_, fun dt hp => ?_, fun hmax => ?_, fun hmin => ?_, fun hcode => ?_, ?_⟩
  · simp only [hp, Option.getD_none]
    rw [List.getD_eq_get _ _ (show (weekday now).val < JP_DOW.length from (weekday now).isLt)]
  · simp only [hp, Option.getD_some]
    rw [List.getD_eq_get _ _ (show (weekday dt).val < JP_DOW.length from (weekday dt).isLt)]
  · simp [dif_neg (not_lt.mpr hmax)]
  · simp [dif_neg (not_lt.mpr hmin)]
  · simp [dif_neg (not_lt.mpr hcode)]
  · exact icon_file_from_code_mem _

theorem build_daily_entry_fields_witness :
    ((build_daily_list now0 dMismatch).getD 0 defaultEntry).tmax = none ∧
    ((build_daily_list now0 dMismatch).getD 0 defaultEntry).file = icon_file_from_code 3 ∧
    (((build_daily_list now0 dMismatch).getD 0 defaultEntry).file = "sun.svg" ∨
      ((build_daily_list now0 dMismatch).getD 0 defaultEntry).file = "cloud.svg" ∨
      ((build_daily_list now0 dMismatch).getD 0 defaultEntry).file = "rain.svg") :=
  ⟨(build_daily_entry_fields now0 dMismatch 0 (by decide)).2.2.1 (by decide),
   (build_daily_entry_fields now0 dMismatch 0 (by decide)).2.2.2.2.1 (by decide),
   (build_daily_entry_fields now0 dMismatch 0 (by decide)).2.2.2.2.2⟩

/-- C8: The icon for the current-weather display (`cute_icon`) and the
icon of a daily entry carrying the same in-range code both come from the one
classification function `icon_file_from_code`, so equal codes give equal icon
files in both places. -/
theorem icon_consistency (c : ℤ) (now : SimpleDate) (d : DailyRaw) (i : ℕ)
    (hi : i < d.time.length) (hc : i < d.weathercode.length)
    (hcode : d.weathercode.getD i 0 = c) :
    (cute_icon c).file = icon_file_from_code c ∧
    ((build_daily_list now d).getD i defaultEntry).file = (cute_icon c).file := by
  refine ⟨rfl, ?_⟩
  rw [build_daily_list_getD now d i hi]
  show icon_file_from_code _ = icon_file_from_code c
  rw [dif_pos hc, ← List.getD_eq_get _ (0 : ℤ) hc, hcode]

theorem icon_consistency_witness :
    (cute_icon 95).file = icon_file_from_code 95 ∧
    ((build_daily_list now0 dSeven).getD 4 defaultEntry).file = (cute_icon 95).file :=
  icon_consistency 95 now0 dSeven 4 (by decide) (by decide) (by decide)

/-- C1: Whatever the two upstream calls do — empty geocoding result,
`httpx.HTTPError`, or any other exception — `home` produces a template
context (the function is total on `Env`), and that context populates exactly
one side: either no error key and every weather key present, or an error
message and no weather key at all. -/
theorem home_exactly_one (env : Env) (city : String) :
    ((home env city).error = none ∧
      (home env city).city.isSome = true ∧ (home env city).country.isSome = true ∧
      (home env city).temp.isSome = true ∧ (home env city).windspeed.isSome = true ∧
      (home env city).time.isSome = true ∧ (home env city).icon.isSome = true ∧
      (home env city).character.isSome = true ∧ (home env city).daily.isSome = true ∧
      (home env city).query_city.isSome = true) ∨
    ((home env city).error.isSome = true ∧
      (home env city).city = none ∧ (home env city).country = none ∧
      (home env city).temp = none ∧ (home env city).windspeed = none ∧
      (home env city).time = none ∧ (home env city).icon = none ∧
      (home env city).character = none ∧ (home env city).daily = none ∧
      (home env city).query_city = none) := by
  obtain ⟨g, w, now⟩ := env
  rcases g with loc | e | e
  · rcases loc with _ | loc
    · right
      simp [home]
    · rcases w with w | e | e
      · left
        simp [home]
      · right
        simp [home]
      · right
        simp [home]
  · right
    simp [home]
  · right
    simp [home]

/-- C9: When geocoding succeeds with an empty result set, the rendered
context is an error view whose message contains the literal requested city
name, and every weather key is absent. -/
theorem home_not_found (env : Env) (city : String)
    (hg : env.geocode = CallResult.ok none) :
    (∃ pre post, (home env city).error = some (pre ++ city ++ post)) ∧
    (home env city).city = none ∧ (home env city).country = none ∧
    (home env city).temp = none ∧ (home env city).windspeed = none ∧
    (home env city).time = none ∧ (home env city).icon = none ∧
    (home env city).character = none ∧ (home env city).daily = none ∧
    (home env city).query_city = none := by
  obtain ⟨g, w, now⟩ := env
  simp only at hg
  subst hg
  exact ⟨⟨"場所『", "』が見つかりませんでした。", rfl⟩, rfl, rfl, rfl, rfl, rfl, rfl, rfl,
    rfl, rfl⟩

theorem home_not_found_witness :
    (∃ pre post,
      (home envNotFound "Nonexistentville").error = some (pre ++ "Nonexistentville" ++ post)) ∧
    (home envNotFound "Nonexistentville").city = none ∧
    (home envNotFound "Nonexistentville").country = none ∧
    (home envNotFound "Nonexistentville").temp = none ∧
    (home envNotFound "Nonexistentville").windspeed = none ∧
    (home envNotFound "Nonexistentville").time = none ∧
    (home envNotFound "Nonexistentville").icon = none ∧
    (home envNotFound "Nonexistentville").character = none ∧
    (home envNotFound "Nonexistentville").daily = none ∧
    (home envNotFound "Nonexistentville").query_city = none :=
  home_not_found envNotFound "Nonexistentville" rfl

/-- C10: When the forecast call succeeds but its `current_weather`
object lacks a `weathercode` field, code 3 is substituted: the current icon
is the cloud icon, and the mascot is never the rainy one — it is the cold or
sunny mascot depending only on the temperature. -/
theorem home_missing_weathercode (env : Env) (city : String) (loc : Loc)
    (w : ForecastResponse)
    (hg : env.geocode = CallResult.ok (some loc))
    (hw : env.weather = CallResult.ok w)
    (hcw : (w.current_weather.getD emptyCurrentWeather).weathercode = none) :
    (home env city).icon = some { file := "cloud.svg", name := "くも" } ∧
    (home env city).character ≠ some "character_rainy.png" ∧
    (home env city).character = some
      (if (w.current_weather.getD emptyCurrentWeather).temperature.getD 0 ≤ 5
        then "character_cold.png" else "character_sunny.png") := by
  obtain ⟨g, w', now⟩ := env
  simp only at hg hw
  subst hg
  subst hw
  have hmem : (3 : ℤ) ∉ rain_codes := by decide
  have hchar : choose_character 3
      (some ((w.current_weather.getD emptyCurrentWeather).temperature.getD 0)) =
      if (w.current_weather.getD emptyCurrentWeather).temperature.getD 0 ≤ 5
        then "character_cold.png" else "character_sunny.png" := by
    rw [choose_character, if_neg hmem]
  refine ⟨?_, ?_, ?_⟩
  · show some (cute_icon ((w.current_weather.getD emptyCurrentWeather).weathercode.getD 3)) = _
    rw [hcw]
    rfl
  · show some (choose_character
      ((w.current_weather.getD emptyCurrentWeather).weathercode.getD 3)
      (some ((w.current_weather.getD emptyCurrentWeather).temperature.getD 0))) ≠ _
    rw [hcw]
    simp only [Option.getD_none, hchar]
    split_ifs <;> simp
  · show some (choose_character
      ((w.current_weather.getD emptyCurrentWeather).weathercode.getD 3)
      (some ((w.current_weather.getD emptyCurrentWeather).temperature.getD 0))) = _
    rw [hcw]
    simp only [Option.getD_none, hchar]

theorem home_missing_weathercode_witness :
    (home envNoCode "Zurich").icon = some { file := "cloud.svg", name := "くも" } ∧
    (home envNoCode "Zurich").character ≠ some "character_rainy.png" ∧
    (home envNoCode "Zurich").character = some
      (if (fcNoCode.current_weather.getD emptyCurrentWeather).temperature.getD 0 ≤ 5
        then "character_cold.png" else "character_sunny.png") :=
  home_missing_weathercode envNoCode "Zurich" locZurich fcNoCode rfl rfl rfl

example : weekday { year := 2024, month := 1, day := 1 } = 0 := by decide
example : weekday { year := 1970, month := 1, day := 1 } = 3 := by decide
example : weekday { year := 2026, month := 10, day := 12 } = 0 := by decide
example : parseIsoDate "2024-02-30" = none := by decide
example : parseIsoDate "2024-02-29" = some { year := 2024, month := 2, day := 29 } := by decide
example : parseIsoDate "garbage" = none := by decide
example : pyRound (mkRat 5 2) = 2 := by decide
example : pyRound (mkRat 7 2) = 4 := by decide
example : pyRound (mkRat (-5) 2) = -2 := by decide
example : pyRound (mkRat 26 10) = 3 := by decide
example : pyRound 4 = 4 := by decide
example : icon_file_from_code 95 = "rain.svg" := by decide
example : choose_character 95 (some (-3)) = "character_rainy.png" := by decide
